import Mathlib

/-!
Chapter 1, `var_macros.c`.

A shallow embedding of the argument-validating entry point of
`src/Chapter 1/var_macros.c` together with the properties of it that the
specification states.

Representation choices.

* A C string is represented by the Lean `String` of its characters before the
  terminating NUL; such a string never has a NUL among its characters.
* `argv` is the list of the strings `argv[0] .. argv[argc-1]`; the C runtime
  calls `main` with `argc` equal to the number of those strings.
* The standard error stream is the list of the chunks written to it, one chunk
  for each `fprintf` call, oldest first.  The text of the stream is the
  concatenation of the chunks.
* The process result is the exit status together with the final state of the
  standard error stream.
* Behaviour that the C standard leaves undefined (reading an argument that is
  not there, a conversion without a matching argument) is a `Fault`.
-/

namespace VarMacros

/-- Undefined behaviour made explicit. -/
inductive Fault where
  /-- The read `argv[i]` with no such argument. -/
  | noSuchArgument
  /-- A conversion of the format string has no argument of its type, or is not one
  of `%s`, `%d`, `%%`. -/
  | badFormat
  deriving DecidableEq, Repr

/-- One variadic argument of `fprintf`. -/
inductive FmtArg where
  /-- A `char*` argument, consumed by `%s`. -/
  | str (s : String)
  /-- An `int` argument, consumed by `%d`. -/
  | int (i : Int)
  deriving DecidableEq, Repr

/-- The final state of the process: exit status and what standard error received. -/
structure Proc where
  /-- The exit status. -/
  status : Int
  /-- The chunks written to standard error, one for each `fprintf` call. -/
  stderr : List String
  deriving DecidableEq, Repr

/-- The text that standard error holds. -/
def Proc.text (p : Proc) : String :=
  String.join p.stderr

/-- The macro `VERSION`, defined as the string `2.3.4`. -/
def VERSION : String := "2.3.4"

/-- The library function `strcmp` on the characters of two C strings: the sign
of the first difference, the terminator of the shorter string being smaller than
every character. -/
def strcmpChars : List Char → List Char → Int
  | [], [] => 0
  | [], _ :: _ => -1
  | _ :: _, [] => 1
  | a :: as, b :: bs =>
    if a.toNat < b.toNat then -1
    else if b.toNat < a.toNat then 1
    else strcmpChars as bs

/-- The library function `strcmp`. -/
def strcmp (s t : String) : Int :=
  strcmpChars s.data t.data

/-- The output of the `printf` family for a format and its arguments: ordinary
characters are copied, `%s` prints the next argument as a string, `%d` prints
the next argument as a decimal integer, `%%` prints a percent sign. -/
def vformat : List Char → List FmtArg → Except Fault (List Char)
  | [], _ => .ok []
  | c :: fs, args =>
    if c = '%' then
      match fs with
      | [] => .error .badFormat
      | d :: rest =>
        if d = 's' then
          match args with
          | .str s :: more => (vformat rest more).map (fun out => s.data ++ out)
          | _ => .error .badFormat
        else if d = 'd' then
          match args with
          | .int i :: more => (vformat rest more).map (fun out => (toString i).data ++ out)
          | _ => .error .badFormat
        else if d = '%' then
          (vformat rest args).map (fun out => '%' :: out)
        else .error .badFormat
    else
      (vformat fs args).map (fun out => c :: out)

/-- The library function `fprintf` on a stream: the formatted text is appended to
the stream as one chunk. -/
def fprintf (stream : List String) (format : String) (args : List FmtArg) :
    Except Fault (List String) :=
  (vformat format.data args).map (fun out => stream ++ [String.mk out])

/-- The macro `LOG_ERR(format, ...)`, which expands to
`fprintf(stderr,format,__VA_ARGS__)`. -/
def LOG_ERR (stderr : List String) (format : String) (args : List FmtArg) :
    Except Fault (List String) :=
  fprintf stderr format args

/-- The read `argv[i]`. -/
def index (argv : List String) (i : Nat) : Except Fault String :=
  match argv.get? i with
  | some s => .ok s
  | none => .error .noSuchArgument

/-- The function `main` of `var_macros.c`.  `exit(1)` ends the process with status 1;
reaching the closing brace of `main` ends it with status 0. -/
def main (argc : Int) (argv : List String) : Except Fault Proc :=
  let stderr : List String := []
  if argc < 3 then
    (LOG_ERR stderr "Invalid number of args, for v%s\n!\n" [.str VERSION]).bind fun stderr =>
    .ok ⟨1, stderr⟩
  else
    (index argv 1).bind fun arg =>
    if strcmp arg "-n" ≠ 0 then
      (index argv 1).bind fun arg1 =>
      (LOG_ERR stderr "%s is a wrong param at index %d for v%s.\n"
        [.str arg1, .int 1, .str VERSION]).bind fun stderr =>
      .ok ⟨1, stderr⟩
    else
      .ok ⟨0, stderr⟩

/-- The process started with the argument vector `argv`: the C runtime calls `main`
with `argc` the number of strings in `argv`. -/
def run (argv : List String) : Except Fault Proc :=
  main (argv.length : Int) argv

/-! Auxiliary facts about the library functions. -/

theorem strcmpChars_eq_zero_iff (s t : List Char) : strcmpChars s t = 0 ↔ s = t := by
  induction s generalizing t with
  | nil => cases t <;> simp [strcmpChars]
  | cons a as ih =>
    cases t with
    | nil => simp [strcmpChars]
    | cons b bs =>
      simp only [strcmpChars]
      by_cases h1 : a.toNat < b.toNat
      · have hne : a ≠ b := fun h => by subst h; exact Nat.lt_irrefl _ h1
        simp [h1, hne]
      · by_cases h2 : b.toNat < a.toNat
        · have hne : a ≠ b := fun h => by subst h; exact Nat.lt_irrefl _ h2
          simp [h1, h2, hne]
        · have hab : a = b := by
            have hn : a.toNat = b.toNat :=
              Nat.le_antisymm (Nat.le_of_not_lt h2) (Nat.le_of_not_lt h1)
            have hc : Char.ofNat a.toNat = Char.ofNat b.toNat := by rw [hn]
            simpa using hc
          simp [h1, h2, hab, ih]

theorem strcmp_eq_zero_iff (s t : String) : strcmp s t = 0 ↔ s = t := by
  unfold strcmp
  rw [strcmpChars_eq_zero_iff]
  exact ⟨fun h => String.ext h, fun h => by rw [h]⟩

theorem LOG_ERR_missing :
    LOG_ERR [] "Invalid number of args, for v%s\n!\n" [.str VERSION]
      = .ok ["Invalid number of args, for v2.3.4\n!\n"] := by
  rfl

theorem LOG_ERR_wrong (a : String) :
    LOG_ERR [] "%s is a wrong param at index %d for v%s.\n" [.str a, .int 1, .str VERSION]
      = .ok [a ++ " is a wrong param at index 1 for v2.3.4.\n"] := by
  rfl

/-- Without the count check the read of `argv[1]` can fail: the fault is a real branch
of the embedding. -/
theorem main_unchecked_read : main 3 [] = .error .noSuchArgument := by
  rfl

theorem index_one (prog a : String) (rest : List String) :
    index (prog :: a :: rest) 1 = .ok a := by
  rfl

/-! The three paths through `main`. -/

theorem main_few (argc : Int) (argv : List String) (h : argc < 3) :
    main argc argv = .ok ⟨1, ["Invalid number of args, for v2.3.4\n!\n"]⟩ := by
  unfold main
  simp only [h, if_true, LOG_ERR_missing]
  rfl

theorem run_short (prog : String) (args : List String) (h : args.length < 2) :
    run (prog :: args) = .ok ⟨1, ["Invalid number of args, for v2.3.4\n!\n"]⟩ := by
  apply main_few
  simp only [List.length_cons]
  omega

theorem run_flag (prog value : String) (rest : List String) :
    run (prog :: "-n" :: value :: rest) = .ok ⟨0, []⟩ := by
  have h : ¬ (((prog :: "-n" :: value :: rest).length : Int) < 3) := by
    simp only [List.length_cons]
    omega
  unfold run main
  simp only [h, if_false]
  rfl

theorem run_other (prog a value : String) (rest : List String) (ha : a ≠ "-n") :
    run (prog :: a :: value :: rest)
      = .ok ⟨1, [a ++ " is a wrong param at index 1 for v2.3.4.\n"]⟩ := by
  have h : ¬ (((prog :: a :: value :: rest).length : Int) < 3) := by
    simp only [List.length_cons]
    omega
  have hc : strcmp a "-n" ≠ 0 := fun h0 => ha ((strcmp_eq_zero_iff _ _).1 h0)
  unfold run main
  simp only [h, if_false]
  simp only [index_one, Except.bind, hc, ne_eq, not_false_eq_true, if_true, LOG_ERR_wrong]

theorem text_single (n : Int) (m : String) : (Proc.mk n [m]).text = m := by
  apply String.ext
  simp [Proc.text, String.join]

theorem text_nil (n : Int) : (Proc.mk n []).text = "" := by
  rfl

/-- Every run takes one of the three paths. -/
theorem run_cases (argv : List String) :
    (argv.length < 3 ∧ run argv = .ok ⟨1, ["Invalid number of args, for v2.3.4\n!\n"]⟩) ∨
    (∃ prog value rest, argv = prog :: "-n" :: value :: rest ∧ run argv = .ok ⟨0, []⟩) ∨
    (∃ prog a value rest, argv = prog :: a :: value :: rest ∧ a ≠ "-n" ∧
      run argv = .ok ⟨1, [a ++ " is a wrong param at index 1 for v2.3.4.\n"]⟩) := by
  match argv with
  | [] => exact Or.inl ⟨by decide, main_few _ _ (by decide)⟩
  | [_] => exact Or.inl ⟨by simp, main_few _ _ (by simp)⟩
  | [_, _] => exact Or.inl ⟨by simp, main_few _ _ (by simp)⟩
  | prog :: a :: value :: rest =>
    by_cases ha : a = "-n"
    · subst ha
      exact Or.inr (Or.inl ⟨prog, value, rest, rfl, run_flag prog value rest⟩)
    · exact Or.inr (Or.inr ⟨prog, a, value, rest, rfl, ha, run_other prog a value rest ha⟩)

theorem wrong_ne_empty (a : String) : a ++ " is a wrong param at index 1 for v2.3.4.\n" ≠ "" := by
  intro h
  have hd := congrArg String.length h
  simp only [String.length_append] at hd
  have hpos : 0 < " is a wrong param at index 1 for v2.3.4.\n".length := by decide
  have h0 : "".length = 0 := by decide
  omega

theorem missing_ne_wrong (a : String) :
    "Invalid number of args, for v2.3.4\n!\n" ≠ a ++ " is a wrong param at index 1 for v2.3.4.\n" := by
  intro h
  have hd := congrArg (fun s => s.data.reverse.get? 1) h
  simp [String.data_append, List.reverse_append] at hd

theorem missing_lacks_dash (pre post : String) :
    "Invalid number of args, for v2.3.4\n!\n" ≠ pre ++ "-x" ++ post := by
  intro h
  have hmem : '-' ∈ (pre ++ "-x" ++ post).data := by
    simp [String.data_append]
  rw [← h] at hmem
  revert hmem
  decide

/-- With at least two arguments the first one decides the run. -/
theorem run_two (prog : String) (args : List String) (a : String)
    (hlen : 2 ≤ args.length) (hhead : args.head? = some a) :
    run (prog :: args) =
      if a = "-n" then .ok ⟨0, []⟩
      else .ok ⟨1, [a ++ " is a wrong param at index 1 for v2.3.4.\n"]⟩ := by
  match args, hlen, hhead with
  | b :: value :: rest, _, hb =>
    have hba : b = a := by simpa using hb
    subst hba
    by_cases hn : b = "-n"
    · subst hn
      simp only [if_true]
      exact run_flag prog value rest
    · simp only [hn, if_false]
      exact run_other prog b value rest hn

/-! The claims of the specification. -/

/-- C1: for every argument list (program name excluded) with fewer than 2 elements,
whatever its contents, the process exits with status 1 and the text on standard
error is exactly the missing-arguments message. -/
theorem C1_missing_arguments (prog : String) (args : List String) (h : args.length < 2) :
    ∃ p, run (prog :: args) = .ok p ∧ p.status = 1 ∧
      p.text = "Invalid number of args, for v2.3.4\n!\n" :=
  ⟨_, run_short prog args h, rfl, text_single _ _⟩

/-- C1 at the empty argument list. -/
theorem C1_missing_arguments_witness :
    ([] : List String).length < 2 ∧
    ∃ p, run ("var_macros" :: []) = .ok p ∧ p.status = 1 ∧
      p.text = "Invalid number of args, for v2.3.4\n!\n" :=
  ⟨by decide, C1_missing_arguments "var_macros" [] (by decide)⟩

/-- C2 as stated fails: with the single argument `-x`, argument 1 is not `-n`, yet the
process writes the missing-arguments message, which is not the unrecognized-flag
message and does not contain the offending value. -/
theorem C2_counterexample :
    ["-x"].head? = some "-x" ∧ "-x" ≠ "-n" ∧
    ∃ p, run ["var_macros", "-x"] = .ok p ∧ p.status = 1 ∧
      p.text = "Invalid number of args, for v2.3.4\n!\n" ∧
      p.text ≠ "-x is a wrong param at index 1 for v2.3.4.\n" ∧
      ¬ ∃ pre post : String, p.text = pre ++ "-x" ++ post := by
  refine ⟨rfl, by decide, _, run_short "var_macros" ["-x"] (by decide), rfl, text_single _ _, ?_, ?_⟩
  · rw [text_single]
    decide
  · rw [text_single]
    rintro ⟨pre, post, h⟩
    exact missing_lacks_dash pre post h

/-- C2, amended: for all invocations with at least 2 arguments where argument 1 is not
`-n`, the process exits with status 1 and standard error receives exactly what the
unrecognized-flag `LOG_ERR` call produces for that argument, a text that contains the
offending value. -/
theorem C2_unrecognized_flag (prog : String) (args : List String) (a : String)
    (hlen : 2 ≤ args.length) (hhead : args.head? = some a) (hne : a ≠ "-n") :
    ∃ p, run (prog :: args) = .ok p ∧ p.status = 1 ∧
      LOG_ERR [] "%s is a wrong param at index %d for v%s.\n" [.str a, .int 1, .str VERSION]
        = .ok p.stderr ∧
      ∃ pre post : String, p.text = pre ++ a ++ post := by
  refine ⟨⟨1, [a ++ " is a wrong param at index 1 for v2.3.4.\n"]⟩, ?_, rfl, LOG_ERR_wrong a,
    "", " is a wrong param at index 1 for v2.3.4.\n", ?_⟩
  · rw [run_two prog args a hlen hhead, if_neg hne]
  · rw [text_single]
    apply String.ext
    simp [String.data_append]

/-- C2, amended, at the arguments `--count 7`. -/
theorem C2_unrecognized_flag_witness :
    2 ≤ ["--count", "7"].length ∧ ["--count", "7"].head? = some "--count" ∧ "--count" ≠ "-n" ∧
    ∃ p, run ("var_macros" :: ["--count", "7"]) = .ok p ∧ p.status = 1 ∧
      LOG_ERR [] "%s is a wrong param at index %d for v%s.\n"
        [.str "--count", .int 1, .str VERSION] = .ok p.stderr ∧
      ∃ pre post : String, p.text = pre ++ "--count" ++ post :=
  ⟨by decide, rfl, by decide,
    C2_unrecognized_flag "var_macros" ["--count", "7"] "--count" (by decide) rfl (by decide)⟩

/-- C3: for every argument list (program name excluded) whose first element is exactly
`-n` and which has a following value, the process exits with status 0 and writes
nothing to standard error. -/
theorem C3_accepts_flag (prog : String) (args : List String)
    (hhead : args.head? = some "-n") (hlen : 2 ≤ args.length) :
    ∃ p, run (prog :: args) = .ok p ∧ p.status = 0 ∧ p.stderr = [] ∧ p.text = "" := by
  refine ⟨⟨0, []⟩, ?_, rfl, rfl, rfl⟩
  rw [run_two prog args "-n" hlen hhead, if_pos rfl]

/-- C3 at the arguments `-n 5`. -/
theorem C3_accepts_flag_witness :
    ["-n", "5"].head? = some "-n" ∧ 2 ≤ ["-n", "5"].length ∧
    ∃ p, run ("var_macros" :: ["-n", "5"]) = .ok p ∧ p.status = 0 ∧ p.stderr = [] ∧
      p.text = "" :=
  ⟨rfl, by decide, C3_accepts_flag "var_macros" ["-n", "5"] rfl (by decide)⟩

/-- C4: for every argument list (program name excluded) with at least 2 elements whose
first element `a` is not exactly `-n`, the process exits with status 1 and the text on
standard error is exactly `a` followed by ` is a wrong param at index 1 for v2.3.4.`
and a newline. -/
theorem C4_wrong_param_text (prog : String) (args : List String) (a : String)
    (hlen : 2 ≤ args.length) (hhead : args.head? = some a) (hne : a ≠ "-n") :
    ∃ p, run (prog :: args) = .ok p ∧ p.status = 1 ∧
      p.text = a ++ " is a wrong param at index 1 for v2.3.4.\n" := by
  refine ⟨_, ?_, rfl, text_single _ _⟩
  rw [run_two prog args a hlen hhead, if_neg hne]

/-- C4 at the arguments `-x 5`. -/
theorem C4_wrong_param_text_witness :
    2 ≤ ["-x", "5"].length ∧ ["-x", "5"].head? = some "-x" ∧ "-x" ≠ "-n" ∧
    ∃ p, run ("var_macros" :: ["-x", "5"]) = .ok p ∧ p.status = 1 ∧
      p.text = "-x is a wrong param at index 1 for v2.3.4.\n" :=
  ⟨by decide, rfl, by decide,
    C4_wrong_param_text "var_macros" ["-x", "5"] "-x" (by decide) rfl (by decide)⟩

/-- C5: for every argument list the exit status is 0 or 1; it is 1 exactly when the
list (program name excluded) has fewer than 2 elements or its first element is not
`-n`, and 0 exactly when the list has at least 2 elements and its first element is
`-n`. -/
theorem C5_exit_status (prog : String) (args : List String) :
    ∃ p, run (prog :: args) = .ok p ∧ (p.status = 0 ∨ p.status = 1) ∧
      (p.status = 1 ↔ (args.length < 2 ∨ args.head? ≠ some "-n")) ∧
      (p.status = 0 ↔ (2 ≤ args.length ∧ args.head? = some "-n")) := by
  by_cases hlen : args.length < 2
  · refine ⟨_, run_short prog args hlen, Or.inr rfl, ⟨fun _ => Or.inl hlen, fun _ => rfl⟩, ?_⟩
    constructor
    · intro h
      exact absurd h (by decide)
    · intro h
      omega
  · have hge : 2 ≤ args.length := Nat.le_of_not_lt hlen
    match args, hge with
    | a :: value :: rest, hge2 =>
      by_cases ha : a = "-n"
      · subst ha
        refine ⟨_, run_flag prog value rest, Or.inl rfl, ?_, ?_⟩
        · constructor
          · intro h
            exact absurd h (by decide)
          · intro h
            rcases h with h | h
            · exact absurd h hlen
            · exact absurd rfl h
        · exact ⟨fun _ => ⟨hge2, rfl⟩, fun _ => rfl⟩
      · have hhead : (a :: value :: rest).head? ≠ some "-n" := by
          simpa using ha
        refine ⟨_, run_other prog a value rest ha, Or.inr rfl, ?_, ?_⟩
        · exact ⟨fun _ => Or.inr hhead, fun _ => rfl⟩
        · constructor
          · intro h
            exact absurd (show (1 : Int) = 0 from h) (by decide)
          · intro h
            exact absurd h.2 hhead

/-- C6: the two guard checks are sequential and the first one wins.  For every argument
list (program name excluded) with fewer than 2 elements whose first element, if
present, is not `-n`, standard error receives the missing-arguments message as its only
chunk, and that text is not the unrecognized-flag message of any value; and in every
run at most one message is written to standard error. -/
theorem C6_first_guard_wins :
    (∀ (prog : String) (args : List String), args.length < 2 → args.head? ≠ some "-n" →
      ∃ p, run (prog :: args) = .ok p ∧
        p.stderr = ["Invalid number of args, for v2.3.4\n!\n"] ∧
        ∀ a : String, p.text ≠ a ++ " is a wrong param at index 1 for v2.3.4.\n") ∧
    (∀ argv : List String, ∃ p, run argv = .ok p ∧ p.stderr.length ≤ 1) := by
  constructor
  · intro prog args hlen _
    refine ⟨_, run_short prog args hlen, rfl, ?_⟩
    intro a
    rw [text_single]
    exact missing_ne_wrong a
  · intro argv
    rcases run_cases argv with ⟨_, h⟩ | ⟨_, _, _, _, h⟩ | ⟨_, _, _, _, _, _, h⟩
    · exact ⟨_, h, Nat.le_refl 1⟩
    · exact ⟨_, h, Nat.zero_le 1⟩
    · exact ⟨_, h, Nat.le_refl 1⟩

/-- C6 at the single argument `-x`. -/
theorem C6_first_guard_wins_witness :
    ["-x"].length < 2 ∧ ["-x"].head? ≠ some "-n" ∧
    ∃ p, run ("var_macros" :: ["-x"]) = .ok p ∧
      p.stderr = ["Invalid number of args, for v2.3.4\n!\n"] ∧
      ∀ a : String, p.text ≠ a ++ " is a wrong param at index 1 for v2.3.4.\n" :=
  ⟨by decide, by decide, C6_first_guard_wins.1 "var_macros" ["-x"] (by decide) (by decide)⟩

/-- C7: output and exit status agree in every run: the text on standard error is
non-empty if and only if the exit status is 1, and nothing at all is written if and
only if the exit status is 0. -/
theorem C7_output_matches_status (argv : List String) :
    ∃ p, run argv = .ok p ∧
      (p.text ≠ "" ↔ p.status = 1) ∧
      ((p.stderr = [] ∧ p.text = "") ↔ p.status = 0) := by
  rcases run_cases argv with ⟨_, h⟩ | ⟨_, _, _, _, h⟩ | ⟨_, a, _, _, _, _, h⟩
  · refine ⟨_, h, ⟨fun _ => rfl, fun _ => ?_⟩, ⟨fun hw => ?_, fun hs => ?_⟩⟩
    · rw [text_single]
      decide
    · exact absurd hw.1 (by simp)
    · exact absurd hs (by decide)
  · refine ⟨_, h, ⟨fun hw => ?_, fun hs => ?_⟩, ⟨fun _ => rfl, fun _ => ⟨rfl, rfl⟩⟩⟩
    · exact absurd (text_nil 0) hw
    · exact absurd hs (by decide)
  · refine ⟨_, h, ⟨fun _ => rfl, fun _ => ?_⟩, ⟨fun hw => ?_, fun hs => ?_⟩⟩
    · rw [text_single]
      exact wrong_ne_empty a
    · exact absurd hw.1 (by simp)
    · exact absurd (show (1 : Int) = 0 from hs) (by decide)

/-- C8: the read of `argv[1]` is always in bounds: for every argument vector, the empty
one and the one holding only the program name included, either the count check fails
or the read succeeds, and the run ends without the no-such-argument fault. -/
theorem C8_argv1_in_bounds (argv : List String) :
    (((argv.length : Int) < 3) ∨ ∃ a, index argv 1 = .ok a) ∧
    run argv ≠ .error .noSuchArgument ∧
    ∃ p, run argv = .ok p := by
  refine ⟨?_, ?_, ?_⟩
  · match argv with
    | [] => exact Or.inl (by decide)
    | [_] => exact Or.inl (by simp)
    | _ :: a :: _ => exact Or.inr ⟨a, rfl⟩
  · rcases run_cases argv with ⟨_, h⟩ | ⟨_, _, _, _, h⟩ | ⟨_, _, _, _, _, _, h⟩ <;>
      rw [h] <;> exact fun hf => Except.noConfusion hf
  · rcases run_cases argv with ⟨_, h⟩ | ⟨_, _, _, _, h⟩ | ⟨_, _, _, _, _, _, h⟩ <;>
      exact ⟨_, h⟩

/-- C9: the value that follows the flag and every later argument are never inspected:
two argument lists (program name excluded) that both have at least 2 elements and the
same first element give the same exit status and the same standard-error output; and
when that first element is `-n` the exit status is 0, whatever follows. -/
theorem C9_later_arguments_ignored (prog1 prog2 : String) (args1 args2 : List String)
    (h1 : 2 ≤ args1.length) (h2 : 2 ≤ args2.length) (hh : args1.head? = args2.head?) :
    run (prog1 :: args1) = run (prog2 :: args2) ∧
    (args1.head? = some "-n" →
      ∃ p, run (prog2 :: args2) = .ok p ∧ p.status = 0 ∧ p.stderr = []) := by
  match args1, h1 with
  | a :: value :: rest, h1a =>
    have ha1 : (a :: value :: rest).head? = some a := rfl
    have ha2 : args2.head? = some a := hh.symm.trans ha1
    constructor
    · rw [run_two prog1 _ a h1a ha1, run_two prog2 args2 a h2 ha2]
    · intro hn
      have hna : a = "-n" := by simpa using hn
      refine ⟨⟨0, []⟩, ?_, rfl, rfl⟩
      rw [run_two prog2 args2 a h2 ha2, if_pos hna]

/-- C9 at `-n 5` against `-n` followed by three other arguments. -/
theorem C9_later_arguments_ignored_witness :
    2 ≤ ["-n", "5"].length ∧ 2 ≤ ["-n", "not a number", "extra", "-x"].length ∧
    ["-n", "5"].head? = ["-n", "not a number", "extra", "-x"].head? ∧
    run ("var_macros" :: ["-n", "5"]) = run ("a.out" :: ["-n", "not a number", "extra", "-x"]) ∧
    (["-n", "5"].head? = some "-n" →
      ∃ p, run ("a.out" :: ["-n", "not a number", "extra", "-x"]) = .ok p ∧ p.status = 0 ∧
        p.stderr = []) :=
  ⟨by decide, by decide, rfl,
    C9_later_arguments_ignored "var_macros" "a.out" ["-n", "5"]
      ["-n", "not a number", "extra", "-x"] (by decide) (by decide) rfl⟩

end VarMacros
